import Mathlib

/-!
Verification of the extraction / classification / letter-composition core of
StartupAutoApplier (src/automation/core.py) against its specification.

The Python (and embedded JavaScript) code is shallowly embedded: strings are
Lean `String`s manipulated through their underlying `List Char`, page state is
passed explicitly, fallible operations return `Except`.  Every definition
follows the source; definitions whose names start with `spec` follow the
specification's wording instead and exist only to be compared with the code.
-/

set_option autoImplicit false

namespace StartupAutoApplier

/-! ## String primitives

Executable models of the Python / JavaScript string operations the source
uses.  They work on `String.data` so that concrete evaluations reduce inside
the kernel.  All inputs handled by the program are ASCII, for which
`Char.toLower`/`Char.toUpper`/`Char.isWhitespace` agree with Python and
JavaScript semantics. -/

/-- Python `str.lower()` / JS `toLowerCase()` (ASCII). -/
def pyLower (s : String) : String :=
  ⟨s.data.map Char.toLower⟩

/-- Python `str.strip()` / JS `trim()`: drop whitespace at both ends. -/
def pyStrip (s : String) : String :=
  ⟨(((s.data.dropWhile Char.isWhitespace).reverse.dropWhile Char.isWhitespace).reverse)⟩

/-- Python `str.capitalize()`: first character upper-cased and ALL remaining
characters lower-cased.  (The lower-casing of the tail is what the spec's
"capitalize the first character of the result" misses.) -/
def pyCapitalize (s : String) : String :=
  match s.data with
  | [] => ""
  | c :: rest => ⟨c.toUpper :: rest.map Char.toLower⟩

/-- The transform the spec's words describe: upper-case the first character
and leave the remaining characters exactly as produced. -/
def capitalizeFirstOnly (s : String) : String :=
  match s.data with
  | [] => ""
  | c :: rest => ⟨c.toUpper :: rest⟩

/-- Does `sub` occur as a contiguous run inside `l`? -/
def containsSub (sub : List Char) : List Char → Bool
  | [] => sub.isEmpty
  | c :: rest => sub.isPrefixOf (c :: rest) || containsSub sub rest

/-- Python `sub in s` / JS `s.includes(sub)`. -/
def strIncludes (s sub : String) : Bool :=
  containsSub sub.data s.data

/-- One pass of Python `str.replace`: non-overlapping, left to right.  `fuel`
bounds the recursion; `fuel = length of the input` always suffices because
every step consumes at least one character of the input. -/
def replaceAux (pat rep : List Char) : Nat → List Char → List Char
  | _, [] => []
  | 0, s => s
  | fuel + 1, c :: rest =>
      if pat.isPrefixOf (c :: rest) then
        rep ++ replaceAux pat rep fuel ((c :: rest).drop pat.length)
      else
        c :: replaceAux pat rep fuel rest

/-- Python `s.replace(pat, rep)` (all occurrences, left to right). -/
def pyReplace (s pat rep : String) : String :=
  ⟨replaceAux pat.data rep.data s.data.length s.data⟩

/-- Split a character list at every occurrence of `c` (the separators are not
kept; empty pieces are). -/
def splitOnChar (c : Char) : List Char → List (List Char)
  | [] => [[]]
  | a :: rest =>
      let r := splitOnChar c rest
      if a = c then [] :: r
      else
        match r with
        | [] => [[a]]
        | h :: t => (a :: h) :: t

/-- Python `s.split('\n')`. -/
def pySplitNewline (s : String) : List String :=
  (splitOnChar (Char.ofNat 10) s.data).map (fun l => ⟨l⟩)

/-! ## TextAnalyzer — `_extract_requirements_and_responsibilities`
(src/automation/core.py lines 710-727). -/

/-- `req_indicators` of the source, verbatim. -/
def req_indicators : List String :=
  ["requirement", "qualification", "skill", "experience", "proficiency",
   "knowledge of", "familiar with"]

/-- `resp_indicators` of the source, verbatim. -/
def resp_indicators : List String :=
  ["responsibilit", "dutie", "you will", "role will", "key function"]

/-- `any(indicator in line.lower() for indicator in req_indicators)`. -/
def isReqLine (line : String) : Bool :=
  req_indicators.any (fun ind => strIncludes (pyLower line) ind)

/-- `any(indicator in line.lower() for indicator in resp_indicators)`. -/
def isRespLine (line : String) : Bool :=
  resp_indicators.any (fun ind => strIncludes (pyLower line) ind)

/-- The classification loop of `_extract_requirements_and_responsibilities`:
strip each line, skip blanks, append requirement-keyword lines to the first
bucket, otherwise responsibility-keyword lines to the second. -/
def classifyLines : List String → List String × List String
  | [] => ([], [])
  | l :: rest =>
      let line := pyStrip l
      let r := classifyLines rest
      if line = "" then r
      else if isReqLine line then (line :: r.1, r.2)
      else if isRespLine line then (r.1, line :: r.2)
      else r

/-- `_extract_requirements_and_responsibilities`: split the description on
newlines, classify, and return the first five lines of each bucket. -/
def extract_requirements_and_responsibilities (full_description : String) :
    List String × List String :=
  let r := classifyLines (pySplitNewline full_description)
  (r.1.take 5, r.2.take 5)

/-! ## LetterComposer — `generate_cover_letter` and helpers
(src/automation/core.py lines 678-776). -/

/-- The keys of the `job_info` dictionary that `generate_cover_letter` reads
(`title`, `company`, `full_description`), each `none` when the key is absent.
`company` holds the string rendering of whatever value the key maps to. -/
structure JobInfo where
  title : Option String
  company : Option String
  full_description : Option String
deriving DecidableEq

/-- `_transform_responsibility_to_first_person`: lower-case, replace each of
the three pronoun phrases (when present) by "I can", then Python-capitalize
(empty input stays empty). -/
def transform_responsibility_to_first_person (resp_text : String) : String :=
  let lowered := pyLower resp_text
  let replaced :=
    ["you will", "the candidate will", "they will"].foldl
      (fun s pronoun => if strIncludes s pronoun then pyReplace s pronoun "I can" else s)
      lowered
  if replaced = "" then "" else pyCapitalize replaced

/-- What the specification claims the transform does: the same lowering and
replacement, but with only the FIRST character capitalized and the remaining
characters left as produced.  Declared for comparison with
`transform_responsibility_to_first_person` only. -/
def specTransformResponsibility (resp_text : String) : String :=
  let lowered := pyLower resp_text
  let replaced :=
    ["you will", "the candidate will", "they will"].foldl
      (fun s pronoun => if strIncludes s pronoun then pyReplace s pronoun "I can" else s)
      lowered
  capitalizeFirstOnly replaced

/-- `_format_list_section`: one fixed default bullet for an empty list,
otherwise one `- item\n` bullet per (optionally transformed) item. -/
def format_list_section (items : List String) (default_text : String)
    (transformFunc : Option (String → String)) : String :=
  if items.isEmpty then "- " ++ default_text ++ "\n"
  else
    items.foldl
      (fun acc item =>
        let processed :=
          match transformFunc with
          | some f => f item
          | none => item
        acc ++ ("- " ++ processed ++ "\n"))
      ""

/-- The body of `generate_cover_letter`'s `try` block: the fixed template of
`_get_cover_letter_template` with every placeholder substituted by the value
the source passes to `str.format` (`{company_name}` occurs three times:
twice in the template and once inside `specific_aspect_company`). -/
def generate_cover_letter_body (job_info : JobInfo) : String :=
  let job_title := job_info.title.getD "this position"
  let company_name := job_info.company.getD "your company"
  let r := extract_requirements_and_responsibilities (job_info.full_description.getD "")
  let requirements_section :=
    format_list_section r.1 "Strong problem-solving skills and a passion for technology" none
  let responsibilities_section :=
    format_list_section r.2 "I'm eager to bring my skills to help achieve company goals."
      (some transform_responsibility_to_first_person)
  "Dear Hiring Manager,\n\nI'm excited to apply for the " ++ job_title ++
    " position at " ++ company_name ++
    ". With my background in software engineering, I'm confident in my ability to contribute effectively to your team.\n\n### Why I'm a Great Fit\nI noticed that you're looking for someone with:\n" ++
    requirements_section ++
    "\n\n### How I Can Add Value\n" ++
    responsibilities_section ++
    "\n\n### Why " ++ company_name ++
    "\nI'm particularly drawn to the innovative work " ++ company_name ++
    " is doing because I admire your commitment to excellence. I'm excited about the opportunity to contribute to your team and help drive meaningful results.\n\nI'd welcome the opportunity to discuss how my background and skills align with your needs. Thank you for your time and consideration.\n\nBest regards,\n[Your Name]"

/-- `_get_fallback_cover_letter`: the fixed fallback letter, reading only the
`title` and `company` keys (defaults `"position"` and `"your company"`). -/
def get_fallback_cover_letter (job_info : JobInfo) : String :=
  "Dear Hiring Manager,\nI'm excited to apply for the " ++
    job_info.title.getD "position" ++ " at " ++
    job_info.company.getD "your company" ++
    ".\nI believe my skills and experience make me a strong candidate for this role.\nLooking forward to the opportunity to discuss how I can contribute to your team.\nBest regards,\n[Your Name]"

/-- The `try` block of `generate_cover_letter` as an `Except` computation.
Every operation in the block is total (dictionary reads carry defaults, the
template is a fixed literal and `str.format` receives every placeholder it
mentions), so the block never raises: the embedding has no error point. -/
def generate_cover_letter_exc (job_info : JobInfo) : Except String String :=
  Except.ok (generate_cover_letter_body job_info)

/-- `generate_cover_letter`: the `try` body, with any raised error absorbed
into the fixed fallback letter. -/
def generate_cover_letter (job_info : JobInfo) : String :=
  match generate_cover_letter_exc job_info with
  | Except.ok s => s
  | Except.error _ => get_fallback_cover_letter job_info

/-! ## ListingExtractor — `_extract_job_data_from_page`
(src/automation/core.py lines 332-476) and `get_job_listings`
(lines 286-306).

The in-page script is embedded as a pure function of a page snapshot: a
`Container` carries, for one `.bg-beige-lighter.mb-5.rounded.pb-4` node, the
raw values every DOM query of the script can return on it, and a `JobRow`
does the same for one `.job-name a[href*="/jobs/"]` node.  `Option` encodes a
`querySelector` miss (JS `null`).  The `Math.random()` token each row's
fallback id would use, and the `new Date().toISOString()` timestamp, are
oracle inputs (`randToken`, `now`). -/

/-- One job-row anchor inside a container. -/
structure JobRow where
  /-- `jobEl.href`. -/
  href : String
  /-- `jobEl.textContent` (the script trims it itself). -/
  text : String
  /-- Texts of `jobContainer.querySelectorAll('.mr-2.text-sm span')` in DOM
  order; `[]` both when the `.mb-4` ancestor is missing and when the query
  matches nothing. -/
  metadataTexts : List String
  /-- `href` of `jobContainer.querySelector('a.rounded-md.bg-brand')`. -/
  viewJobHref : Option String
  /-- The token `Math.random().toString(36).substring(2, 9)` would yield for
  this row (oracle for the id fallback). -/
  randToken : String
deriving DecidableEq

/-- One employer container node. -/
structure Container where
  /-- `textContent` of `.company-name`, `none` if the node is missing. -/
  companyNameText : Option String
  /-- `textContent` of `.text-gray-400`. -/
  companyBatchText : Option String
  /-- `textContent` of `.text-gray-700`. -/
  companyDescriptionText : Option String
  /-- `href` of `a[href*="/website"]`. -/
  websiteHref : Option String
  /-- `href` of `a[href*="twitter.com"], a[href*="x.com"]`. -/
  twitterHref : Option String
  /-- `(src, alt)` of `img[alt]`. -/
  logoImg : Option (String × String)
  /-- Texts of the `.detail-label` nodes in DOM order. -/
  detailTexts : List String
  /-- The `.job-name a[href*="/jobs/"]` rows in DOM order. -/
  jobRows : List JobRow
  /-- `href` of `a.bg-orange-500, button.bg-orange-500` when such a node
  exists (`some (some url)` for an anchor, `some none` for a button, `none`
  when absent).  The script reads it only inside the per-row callback. -/
  applyButton : Option (Option String)
deriving DecidableEq

/-- The nested `logo: {url, alt}` object of a produced record. -/
structure Logo where
  url : String
  alt : String
deriving DecidableEq

/-- The nested `company` object of a produced record. -/
structure CompanyData where
  name : String
  batch : String
  description : String
  website : String
  twitter : String
  logo : Logo
  details : List String
deriving DecidableEq

/-- One element of the array the in-page script returns. -/
structure JobData where
  id : String
  title : String
  company : CompanyData
  location : String
  salary : String
  equity : String
  experience : String
  jobType : String
  visa : String
  url : String
  viewJobUrl : String
  hasApplyButton : Bool
  metadata : List String
  extractedAt : String
deriving DecidableEq

/-- A JavaScript runtime error escaping the evaluated script. -/
inductive JsError where
  | referenceError (name : String)
deriving DecidableEq

/-- Longest digit run at the head of the list. -/
def leadingDigits : List Char → List Char
  | [] => []
  | c :: rest => if c.isDigit then c :: leadingDigits rest else []

/-- `jobUrl.match(/\/jobs\/(\d+)/)`: the first position where `/jobs/` is
followed by at least one digit yields the maximal digit run after it. -/
def findJobsId : List Char → Option String
  | [] => none
  | c :: rest =>
      if ("/jobs/".data).isPrefixOf (c :: rest) then
        let ds := leadingDigits ((c :: rest).drop 6)
        if ds.isEmpty then findJobsId rest else some ⟨ds⟩
      else findJobsId rest

/-- The six `let` variables the metadata loop of the script assigns into. -/
structure MetaFields where
  salary : String
  equity : String
  experience : String
  location : String
  jobType : String
  visa : String
deriving DecidableEq

/-- The six variables before the loop runs: all empty strings. -/
def initMetaFields : MetaFields :=
  ⟨"", "", "", "", "", ""⟩

/-- One iteration of the `metadata.forEach` classification chain
(src/automation/core.py lines 379-393), conditions verbatim — including the
mojibake euro literal `'â‚¬'` the source file contains. -/
def classifyToken (acc : MetaFields) (meta : String) : MetaFields :=
  if strIncludes meta "$" || strIncludes meta "â‚¬" || strIncludes meta "K" then
    { acc with salary := meta }
  else if strIncludes meta "%" then
    { acc with equity := meta }
  else if strIncludes meta "years" || strIncludes meta "grads" then
    { acc with experience := meta }
  else if strIncludes meta "," &&
      (strIncludes meta "US" || strIncludes meta "GB" || strIncludes meta "ES" ||
        strIncludes meta "IN") then
    { acc with location := meta }
  else if meta = "fulltime" || meta = "parttime" then
    { acc with jobType := meta }
  else if strIncludes meta "visa" || strIncludes meta "citizen" || strIncludes meta "sponsor" then
    { acc with visa := meta }
  else acc

/-- The whole `metadata.forEach` loop. -/
def classifyMetadata (metadata : List String) : MetaFields :=
  metadata.foldl classifyToken initMetaFields

/-- The `jobData` object built for one job row (script lines 364-437). -/
def mkRowJobData (now : String) (c : Container) (row : JobRow) : JobData :=
  let jobUrl := row.href
  let jobTitle := pyStrip row.text
  let jobId :=
    match findJobsId jobUrl.data with
    | some digits => digits
    | none => "job-" ++ row.randToken
  let metadata := row.metadataTexts.map pyStrip
  let fields := classifyMetadata metadata
  let logo := c.logoImg.getD ("", "")
  { id := jobId
    title := jobTitle
    company :=
      { name := (c.companyNameText.map pyStrip).getD "Unknown Company"
        batch := (c.companyBatchText.map pyStrip).getD ""
        description := (c.companyDescriptionText.map pyStrip).getD ""
        website := c.websiteHref.getD ""
        twitter := c.twitterHref.getD ""
        logo := ⟨logo.1, logo.2⟩
        details := c.detailTexts.map pyStrip }
    location := fields.location
    salary := fields.salary
    equity := fields.equity
    experience := fields.experience
    jobType := fields.jobType
    visa := fields.visa
    url := jobUrl
    viewJobUrl := row.viewJobHref.getD jobUrl
    hasApplyButton := c.applyButton.isSome
    metadata := metadata
    extractedAt := now }

/-- Processing of one container (script lines 339-473).

The general-application branch at line 440 reads `hasApplyButton` (and then
`applyButton`, `logoUrl`, `logoAlt`), but those are `const`-declared INSIDE
the `jobElements.forEach` callback (lines 400-406) and are not in scope in
the surrounding container callback.  `jobElements.length === 0 &&
hasApplyButton` short-circuits, so the out-of-scope read is reached exactly
when the container has zero job rows, and there it throws
`ReferenceError: hasApplyButton is not defined`, aborting the whole
evaluated script.  With at least one job row the right operand is never
evaluated and the branch is skipped. -/
def extractContainer (now : String) (c : Container) : Except JsError (List JobData) :=
  if c.jobRows.isEmpty then
    Except.error (JsError.referenceError "hasApplyButton")
  else
    Except.ok (c.jobRows.map (mkRowJobData now c))

/-- `_extract_job_data_from_page`: the `jobContainers.forEach` loop; an error
thrown while processing any container aborts the whole script, discarding
all records. -/
def extract_job_data_from_page (now : String) : List Container → Except JsError (List JobData)
  | [] => Except.ok []
  | c :: rest => do
      let js ← extractContainer now c
      let restJs ← extract_job_data_from_page now rest
      pure (js ++ restJs)

/-- The record-validity test of `get_job_listings` (line 301): `url` truthy,
`title` truthy and not the sentinel. -/
def validJob (j : JobData) : Bool :=
  decide (j.url ≠ "") && decide (j.title ≠ "") && decide (j.title ≠ "Untitled Position")

/-- `get_job_listings`: extract (scrolling only changes which containers the
page holds, reflected in the `page` argument), drop invalid records, and
truncate to `max_listings`.  An extraction error is re-raised. -/
def get_job_listings (now : String) (page : List Container) (max_listings : Nat) :
    Except JsError (List JobData) :=
  match extract_job_data_from_page now page with
  | Except.error e => Except.error e
  | Except.ok jobs => Except.ok ((jobs.filter validJob).take max_listings)

/-! ## ScrollLoader — `_scroll_to_load_jobs`
(src/automation/core.py lines 314-330).

The page is deterministic between scrolls, so its observable state is a
function of the number of scroll-and-settle steps performed so far:
`H s` is `document.body.scrollHeight` and `C s` the number of elements
matching the job selector after `s` scrolls.  The loop returns the number of
scrolls it performed; `fuel` bounds the iteration count, `none` meaning the
bound was hit before the loop exited on its own. -/

/-- The `while` loop, carrying the scroll count `s` and `last_height`. -/
def scrollLoopAux (H C : Nat → Nat) (mx : Nat) : Nat → Nat → Nat → Option Nat
  | 0, _, _ => none
  | fuel + 1, s, last =>
      if mx ≤ C s then some s
      else
        -- scroll to bottom, settle, remeasure
        if H (s + 1) = last then some (s + 1)
        else if mx ≤ C (s + 1) then some (s + 1)
        else scrollLoopAux H C mx fuel (s + 1) (H (s + 1))

/-- `_scroll_to_load_jobs`: `last_height` starts at the pre-scroll
measurement `H 0`. -/
def scroll_to_load_jobs (H C : Nat → Nat) (mx fuel : Nat) : Option Nat :=
  scrollLoopAux H C mx fuel 0 (H 0)

/-! ## LocatorResolver — `_find_login_element`
(src/automation/core.py lines 141-158).

`locate` models the bounded-time lookup of one selector: `none` when the
wait times out or throws, `some e` when an element is found.  `isEd` is the
`is_editable` usability check. -/

/-- `_find_login_element`: try the selectors in order; keep the first located
element that is editable; a located but non-editable element is reset to
`None` and the search continues; `None` once the list is exhausted. -/
def find_login_element {E : Type} (locate : String → Option E) (isEd : E → Bool) :
    List String → Option E
  | [] => none
  | sel :: rest =>
      match locate sel with
      | some e => if isEd e then some e else find_login_element locate isEd rest
      | none => find_login_element locate isEd rest

/-! ## Helper lemmas -/

/-- Appending to a non-empty string keeps it non-empty. -/
theorem strApp_ne_empty (a b : String) (ha : a ≠ "") : a ++ b ≠ "" := by
  intro h
  apply ha
  have hd : a.data ++ b.data = ([] : List Char) := congrArg String.data h
  have ha0 : a.data = [] := (List.append_eq_nil.mp hd).1
  cases a with
  | mk d =>
    simp only at ha0
    simp [ha0]

/-- The classification loop equals two filters over the stripped lines:
requirement-keyword lines, and responsibility-keyword lines that carry no
requirement keyword. -/
theorem classifyLines_eq_filter (lines : List String) :
    classifyLines lines =
      (((lines.map pyStrip).filter fun l => decide (l ≠ "") && isReqLine l),
       ((lines.map pyStrip).filter fun l => decide (l ≠ "") && !isReqLine l && isRespLine l)) := by
  induction lines with
  | nil => rfl
  | cons l rest ih =>
    simp only [classifyLines, List.map_cons, List.filter_cons, ih]
    by_cases h1 : pyStrip l = ""
    · simp [h1]
    · by_cases h2 : isReqLine (pyStrip l)
      · simp [h1, h2]
      · by_cases h3 : isRespLine (pyStrip l)
        · simp [h1, h2, h3]
        · simp [h1, h2, h3]

/-- Each `classifyToken` step leaves `salary` unchanged or sets it to the
current token. -/
theorem classifyToken_salary_step (acc : MetaFields) (t : String) :
    (classifyToken acc t).salary = acc.salary ∨ (classifyToken acc t).salary = t := by
  unfold classifyToken; split_ifs <;> simp

/-- Each `classifyToken` step leaves `equity` unchanged or sets it to the
current token. -/
theorem classifyToken_equity_step (acc : MetaFields) (t : String) :
    (classifyToken acc t).equity = acc.equity ∨ (classifyToken acc t).equity = t := by
  unfold classifyToken; split_ifs <;> simp

/-- Each `classifyToken` step leaves `experience` unchanged or sets it to the
current token. -/
theorem classifyToken_experience_step (acc : MetaFields) (t : String) :
    (classifyToken acc t).experience = acc.experience ∨ (classifyToken acc t).experience = t := by
  unfold classifyToken; split_ifs <;> simp

/-- Each `classifyToken` step leaves `location` unchanged or sets it to the
current token. -/
theorem classifyToken_location_step (acc : MetaFields) (t : String) :
    (classifyToken acc t).location = acc.location ∨ (classifyToken acc t).location = t := by
  unfold classifyToken; split_ifs <;> simp

/-- Each `classifyToken` step leaves `jobType` unchanged or sets it to the
current token. -/
theorem classifyToken_jobType_step (acc : MetaFields) (t : String) :
    (classifyToken acc t).jobType = acc.jobType ∨ (classifyToken acc t).jobType = t := by
  unfold classifyToken; split_ifs <;> simp

/-- Each `classifyToken` step leaves `visa` unchanged or sets it to the
current token. -/
theorem classifyToken_visa_step (acc : MetaFields) (t : String) :
    (classifyToken acc t).visa = acc.visa ∨ (classifyToken acc t).visa = t := by
  unfold classifyToken; split_ifs <;> simp

/-- A projection that every `classifyToken` step either preserves or sets to
the current token is, after the whole fold, its initial value or one of the
folded tokens. -/
theorem classifyFold_proj (f : MetaFields → String)
    (hf : ∀ acc t, f (classifyToken acc t) = f acc ∨ f (classifyToken acc t) = t)
    (ts : List String) :
    ∀ acc, f (ts.foldl classifyToken acc) = f acc ∨ f (ts.foldl classifyToken acc) ∈ ts := by
  induction ts with
  | nil => intro acc; simp
  | cons t ts ih =>
    intro acc
    simp only [List.foldl_cons, List.mem_cons]
    rcases ih (classifyToken acc t) with h1 | h1
    · rcases hf acc t with h2 | h2
      · left; rw [h1, h2]
      · right; left; rw [h1, h2]
    · right; right; exact h1

/-- Once the loop state carries `last = H s`, a plateau `H (i+1) = H i` forces
a normal exit after at most `i + 1` scrolls, for any fuel reaching it. -/
theorem scrollLoopAux_plateau (H C : Nat → Nat) (mx i : Nat) (hplat : H (i + 1) = H i) :
    ∀ fuel s, s ≤ i → i + 1 - s ≤ fuel →
      ∃ n, scrollLoopAux H C mx fuel s (H s) = some n ∧ n ≤ i + 1 := by
  intro fuel
  induction fuel with
  | zero => intro s hs hf; omega
  | succ f ih =>
    intro s hs hf
    simp only [scrollLoopAux]
    by_cases h1 : mx ≤ C s
    · exact ⟨s, by simp [h1], by omega⟩
    · by_cases h2 : H (s + 1) = H s
      · exact ⟨s + 1, by simp [h1, h2], by omega⟩
      · by_cases h3 : mx ≤ C (s + 1)
        · exact ⟨s + 1, by simp [h1, h2, h3], by omega⟩
        · have hsi : s < i := by
            rcases Nat.lt_or_ge s i with h | h
            · exact h
            · exfalso
              have hse : s = i := Nat.le_antisymm hs h
              rw [hse] at h2
              exact h2 hplat
          rcases ih (s + 1) (by omega) (by omega) with ⟨n, hn, hni⟩
          exact ⟨n, by simp [h1, h2, h3, hn], hni⟩

/-! ## Named rule predicates and concrete fixtures used by the theorems -/

/-- The salary rule of the classification chain (core.py line 380). -/
def salaryRule (meta : String) : Bool :=
  strIncludes meta "$" || strIncludes meta "â‚¬" || strIncludes meta "K"

/-- The equity rule (line 382). -/
def equityRule (meta : String) : Bool :=
  strIncludes meta "%"

/-- The experience rule (line 384). -/
def experienceRule (meta : String) : Bool :=
  strIncludes meta "years" || strIncludes meta "grads"

/-- The location rule (line 386). -/
def locationRule (meta : String) : Bool :=
  strIncludes meta "," &&
    (strIncludes meta "US" || strIncludes meta "GB" || strIncludes meta "ES" ||
      strIncludes meta "IN")

/-- The job-type rule (line 388). -/
def jobTypeRule (meta : String) : Bool :=
  decide (meta = "fulltime") || decide (meta = "parttime")

/-- The visa rule (line 390). -/
def visaRule (meta : String) : Bool :=
  strIncludes meta "visa" || strIncludes meta "citizen" || strIncludes meta "sponsor"

/-- A container with zero job rows and a visible apply affordance for company
"Acme Corp" — the input of the spec's general-application synthesis test. -/
def acmeContainer : Container :=
  { companyNameText := some "Acme Corp"
    companyBatchText := some "W25"
    companyDescriptionText := some "Acme builds developer tools."
    websiteHref := some "https://acme.example/website"
    twitterHref := none
    logoImg := some ("https://acme.example/logo.png", "Acme Corp")
    detailTexts := ["San Francisco, CA, US", "11-50"]
    jobRows := []
    applyButton := some (some "https://www.workatastartup.com/acme/apply") }

/-- Lookup for the `[A, B, C]` order-sensitivity scenario: every candidate
locates an element (numbered 0, 1, 2). -/
def abcLocate : String → Option Nat := fun sel =>
  if sel = "A" then some 0
  else if sel = "B" then some 1
  else if sel = "C" then some 2
  else none

/-- Usability for the scenario: only the elements of B and C are editable. -/
def abcEditable : Nat → Bool := fun e =>
  decide (e = 1) || decide (e = 2)

/-- A minimal one-row container for evaluating the extraction pipeline. -/
def witnessRow : JobRow :=
  { href := "https://www.workatastartup.com/jobs/12345"
    text := " Backend Engineer "
    metadataTexts := ["$120K", "1.5%", "fulltime"]
    viewJobHref := none
    randToken := "abc1234" }

/-- The container holding `witnessRow` with every optional field absent. -/
def witnessContainer : Container :=
  { companyNameText := some "Acme Corp"
    companyBatchText := none
    companyDescriptionText := none
    websiteHref := none
    twitterHref := none
    logoImg := none
    detailTexts := []
    jobRows := [witnessRow]
    applyButton := none }

/-- The record the extraction produces from `witnessContainer`. -/
def witnessRecord : JobData :=
  { id := "12345"
    title := "Backend Engineer"
    company :=
      { name := "Acme Corp"
        batch := ""
        description := ""
        website := ""
        twitter := ""
        logo := ⟨"", ""⟩
        details := [] }
    location := ""
    salary := "$120K"
    equity := "1.5%"
    experience := ""
    jobType := "fulltime"
    visa := ""
    url := "https://www.workatastartup.com/jobs/12345"
    viewJobUrl := "https://www.workatastartup.com/jobs/12345"
    hasApplyButton := false
    metadata := ["$120K", "1.5%", "fulltime"]
    extractedAt := "t0" }

/-- A job-info record with title, company and description present. -/
def jInfoA : JobInfo :=
  ⟨some "Backend Engineer", some "Acme", some "Requirements: 3 years experience."⟩

/-- The same title and company with the description absent. -/
def jInfoB : JobInfo :=
  ⟨some "Backend Engineer", some "Acme", none⟩

/-! ## Claim theorems -/

/-- C1: the claim says a container with zero job rows and a visible apply
affordance yields exactly one synthesized general-application record and the
extraction pass succeeds.  The code disagrees: the guard at core.py line 440
reads `hasApplyButton`, declared only inside the per-row callback, so for the
claim's very input the evaluated script throws a ReferenceError and both the
extraction pass and `get_job_listings` fail with zero records. -/
theorem general_application_reference_error :
    extract_job_data_from_page "2025-10-12T00:00:00.000Z" [acmeContainer] =
      Except.error (JsError.referenceError "hasApplyButton") ∧
    get_job_listings "2025-10-12T00:00:00.000Z" [acmeContainer] 10 =
      Except.error (JsError.referenceError "hasApplyButton") :=
  ⟨rfl, rfl⟩

/-- C2 counterexample: for the responsibility line
`"Responsibilities: you will own onboarding."` the code's transform yields
`"Responsibilities: i can own onboarding."` — Python `str.capitalize`
lower-cases everything after the first character, so the replaced pronoun
does NOT read `"I can"` verbatim, refuting the claim's transform description
(`specTransformResponsibility`, which capitalizes only the first character
and keeps the rest as produced). -/
theorem pronoun_transform_counterexample :
    transform_responsibility_to_first_person "Responsibilities: you will own onboarding." =
        "Responsibilities: i can own onboarding." ∧
    specTransformResponsibility "Responsibilities: you will own onboarding." =
        "Responsibilities: I can own onboarding." ∧
    transform_responsibility_to_first_person "Responsibilities: you will own onboarding." ≠
      specTransformResponsibility "Responsibilities: you will own onboarding." :=
  ⟨by decide, by decide, by decide⟩

/-- C2 (amended): the bullet placed in the letter for a responsibility line
is `"- "` ++ the line lower-cased with the pronoun phrases replaced by
`"I can"` and then Python-capitalized (first character upper-cased, ALL
remaining characters lower-cased); hence the replaced pronoun reads
`"i can"` when it occurs after the first character, and `"I can"` survives
only when the replacement sits at the start of the line. -/
theorem pronoun_transform_amended :
    (∀ (line default_text : String),
      format_list_section [line] default_text (some transform_responsibility_to_first_person) =
        "- " ++ transform_responsibility_to_first_person line ++ "\n") ∧
    format_list_section ["Responsibilities: you will own onboarding."]
        "I'm eager to bring my skills to help achieve company goals."
        (some transform_responsibility_to_first_person) =
      "- Responsibilities: i can own onboarding.\n" ∧
    transform_responsibility_to_first_person "You will own onboarding." =
      "I can own onboarding." := by
  refine ⟨?_, by decide, by decide⟩
  intro line default_text
  show ("" : String) ++ ("- " ++ transform_responsibility_to_first_person line ++ "\n") = _
  have h : ∀ s : String, ("" : String) ++ s = s := by
    intro s
    rfl
  rw [h]

/-- C3: each metadata token is tested against the classification rules in the
fixed order salary, equity, experience, location, jobType, visa; the first
matching rule wins and sets exactly that one field to the token, a token
matching no rule changes nothing (so every token lands in at most one
category); in particular `"$120K"` classifies as salary and `"1.5%"` as
equity. -/
theorem metadata_token_precedence :
    (∀ (acc : MetaFields) (meta : String),
      (salaryRule meta = true → classifyToken acc meta = { acc with salary := meta }) ∧
      (salaryRule meta = false → equityRule meta = true →
        classifyToken acc meta = { acc with equity := meta }) ∧
      (salaryRule meta = false → equityRule meta = false → experienceRule meta = true →
        classifyToken acc meta = { acc with experience := meta }) ∧
      (salaryRule meta = false → equityRule meta = false → experienceRule meta = false →
        locationRule meta = true → classifyToken acc meta = { acc with location := meta }) ∧
      (salaryRule meta = false → equityRule meta = false → experienceRule meta = false →
        locationRule meta = false → jobTypeRule meta = true →
        classifyToken acc meta = { acc with jobType := meta }) ∧
      (salaryRule meta = false → equityRule meta = false → experienceRule meta = false →
        locationRule meta = false → jobTypeRule meta = false → visaRule meta = true →
        classifyToken acc meta = { acc with visa := meta }) ∧
      (salaryRule meta = false → equityRule meta = false → experienceRule meta = false →
        locationRule meta = false → jobTypeRule meta = false → visaRule meta = false →
        classifyToken acc meta = acc)) ∧
    (∀ acc : MetaFields,
      classifyToken acc "$120K" = { acc with salary := "$120K" } ∧
      classifyToken acc "1.5%" = { acc with equity := "1.5%" }) := by
  have hmain : ∀ (acc : MetaFields) (meta : String),
      (salaryRule meta = true → classifyToken acc meta = { acc with salary := meta }) ∧
      (salaryRule meta = false → equityRule meta = true →
        classifyToken acc meta = { acc with equity := meta }) ∧
      (salaryRule meta = false → equityRule meta = false → experienceRule meta = true →
        classifyToken acc meta = { acc with experience := meta }) ∧
      (salaryRule meta = false → equityRule meta = false → experienceRule meta = false →
        locationRule meta = true → classifyToken acc meta = { acc with location := meta }) ∧
      (salaryRule meta = false → equityRule meta = false → experienceRule meta = false →
        locationRule meta = false → jobTypeRule meta = true →
        classifyToken acc meta = { acc with jobType := meta }) ∧
      (salaryRule meta = false → equityRule meta = false → experienceRule meta = false →
        locationRule meta = false → jobTypeRule meta = false → visaRule meta = true →
        classifyToken acc meta = { acc with visa := meta }) ∧
      (salaryRule meta = false → equityRule meta = false → experienceRule meta = false →
        locationRule meta = false → jobTypeRule meta = false → visaRule meta = false →
        classifyToken acc meta = acc) := by
    intro acc meta
    simp only [salaryRule, equityRule, experienceRule, locationRule, jobTypeRule, visaRule,
      Bool.or_eq_true, Bool.or_eq_false_iff, Bool.and_eq_true, Bool.and_eq_false_iff,
      decide_eq_true_eq, decide_eq_false_iff_not]
    refine ⟨?_, ?_, ?_, ?_, ?_, ?_, ?_⟩ <;>
      · intros
        unfold classifyToken
        split_ifs <;> simp_all
  exact ⟨hmain, fun acc =>
    ⟨(hmain acc "$120K").1 (by decide),
     (hmain acc "1.5%").2.1 (by decide) (by decide)⟩⟩

/-- C3 witness: `"1.5%"` fails the salary rule and matches the equity rule,
so it sets exactly the equity field; `"$120K"` matches the salary rule. -/
theorem metadata_token_precedence_witness :
    salaryRule "1.5%" = false ∧ equityRule "1.5%" = true ∧ salaryRule "$120K" = true ∧
    classifyToken initMetaFields "1.5%" = { initMetaFields with equity := "1.5%" } ∧
    classifyToken initMetaFields "$120K" = { initMetaFields with salary := "$120K" } :=
  ⟨by decide, by decide, by decide,
    (metadata_token_precedence.1 initMetaFields "1.5%").2.1 (by decide) (by decide),
    (metadata_token_precedence.1 initMetaFields "$120K").1 (by decide)⟩

/-- C4: every stripped non-blank description line containing a requirement
keyword is appended to the requirements bucket and never to the
responsibilities bucket, even when it also contains a responsibility keyword
(and hence never appears among the returned responsibilities either). -/
theorem requirement_keyword_precedence (desc line : String)
    (hmem : line ∈ (pySplitNewline desc).map pyStrip)
    (hne : line ≠ "") (hreq : isReqLine line = true) :
    line ∈ (classifyLines (pySplitNewline desc)).1 ∧
    line ∉ (classifyLines (pySplitNewline desc)).2 ∧
    line ∉ (extract_requirements_and_responsibilities desc).2 := by
  have hchar := classifyLines_eq_filter (pySplitNewline desc)
  refine ⟨?_, ?_, ?_⟩
  · rw [hchar]
    exact List.mem_filter.mpr ⟨hmem, by simp [hne, hreq]⟩
  · rw [hchar]
    intro hc
    have := (List.mem_filter.mp hc).2
    simp [hreq] at this
  · intro hc
    have h2 : line ∈ (classifyLines (pySplitNewline desc)).2 := by
      have ht : (extract_requirements_and_responsibilities desc).2
          = (classifyLines (pySplitNewline desc)).2.take 5 := rfl
      rw [ht] at hc
      exact List.mem_of_mem_take hc
    rw [hchar] at h2
    have := (List.mem_filter.mp h2).2
    simp [hreq] at this

/-- C4 witness: the line containing both `"experience"` and `"you will"`
classifies as requirement, not responsibility. -/
theorem requirement_keyword_precedence_witness :
    "3 years of experience; you will also own onboarding" ≠ "" ∧
    isReqLine "3 years of experience; you will also own onboarding" = true ∧
    isRespLine "3 years of experience; you will also own onboarding" = true ∧
    "3 years of experience; you will also own onboarding" ∈
      (classifyLines (pySplitNewline "3 years of experience; you will also own onboarding")).1 ∧
    "3 years of experience; you will also own onboarding" ∉
      (classifyLines (pySplitNewline "3 years of experience; you will also own onboarding")).2 :=
  ⟨by decide, by decide, by decide,
    (requirement_keyword_precedence _ _ (by decide) (by decide) (by decide)).1,
    (requirement_keyword_precedence _ _ (by decide) (by decide) (by decide)).2.1⟩

/-- C5: whenever the remeasured scroll-height after a scroll-and-settle step
equals the height of the previous iteration (`H (i+1) = H i`), the loop
stops: for any fuel past that point it returns normally having performed at
most `i + 1` scrolls, even though the item count `C` never reached the
target. -/
theorem scroll_plateau_terminates (H C : Nat → Nat) (mx i fuel : Nat)
    (hplat : H (i + 1) = H i) (hfuel : i + 1 ≤ fuel) :
    ∃ n, scroll_to_load_jobs H C mx fuel = some n ∧ n ≤ i + 1 :=
  scrollLoopAux_plateau H C mx i hplat fuel 0 (Nat.zero_le i) (by omega)

/-- C5 witness: a page of constant height 100 with zero matched items ends
the loop after its first scroll although the target 10 is never met. -/
theorem scroll_plateau_terminates_witness :
    (fun _ : Nat => 100) (0 + 1) = (fun _ : Nat => 100) 0 ∧ 0 + 1 ≤ 5 ∧
    ∃ n, scroll_to_load_jobs (fun _ => 100) (fun _ => 0) 10 5 = some n ∧ n ≤ 0 + 1 :=
  ⟨rfl, by omega, scroll_plateau_terminates (fun _ => 100) (fun _ => 0) 10 0 5 rfl (by omega)⟩

/-- C6: the fallback finder scans candidates strictly in list order: it
returns `none` exactly when no candidate locates an editable element, and it
returns the element of the first candidate that locates an editable element
— candidates before it that locate only non-editable elements are skipped
without ending the search. -/
theorem find_login_element_order {E : Type} (locate : String → Option E) (isEd : E → Bool) :
    ∀ l : List String,
      (find_login_element locate isEd l = none ↔
        ∀ sel ∈ l, ∀ e, locate sel = some e → isEd e = false) ∧
      (∀ (l1 : List String) (sel : String) (l2 : List String) (e : E),
        l = l1 ++ sel :: l2 →
        (∀ s2 ∈ l1, ∀ e2, locate s2 = some e2 → isEd e2 = false) →
        locate sel = some e → isEd e = true →
        find_login_element locate isEd l = some e) := by
  intro l
  induction l with
  | nil =>
    constructor
    · simp [find_login_element]
    · intro l1 sel l2 e hl
      exact absurd hl (by simp)
  | cons a rest ih =>
    constructor
    · simp only [find_login_element]
      cases ha : locate a with
      | none =>
        rw [ih.1]
        constructor
        · intro hrest sel hsel e he
          rcases List.mem_cons.mp hsel with h | h
          · subst h; rw [ha] at he; cases he
          · exact hrest sel h e he
        · intro hall sel hsel e he
          exact hall sel (List.mem_cons_of_mem a hsel) e he
      | some e =>
        by_cases hed : isEd e
        · simp only [if_pos hed]
          constructor
          · intro hc; cases hc
          · intro hall
            have := hall a (List.mem_cons_self a rest) e ha
            rw [hed] at this; cases this
        · simp only [Bool.not_eq_true] at hed
          simp only [hed, if_false, Bool.false_eq_true]
          rw [ih.1]
          constructor
          · intro hrest sel hsel e2 he2
            rcases List.mem_cons.mp hsel with h | h
            · subst h; rw [ha] at he2
              cases he2; exact hed
            · exact hrest sel h e2 he2
          · intro hall sel hsel e2 he2
            exact hall sel (List.mem_cons_of_mem a hsel) e2 he2
    · intro l1 sel l2 e hl hskip hloc hed
      cases l1 with
      | nil =>
        simp only [List.nil_append] at hl
        cases hl
        simp [find_login_element, hloc, hed]
      | cons b l1t =>
        simp only [List.cons_append] at hl
        cases hl
        have hrest := (ih.2) l1t sel l2 e rfl
          (fun s2 hs2 e2 he2 => hskip s2 (List.mem_cons_of_mem a hs2) e2 he2) hloc hed
        have haskip := hskip a (List.mem_cons_self a l1t)
        simp only [find_login_element]
        cases hb : locate a with
        | none => exact hrest
        | some eb =>
          have heb := haskip eb hb
          simpa [heb] using hrest

/-- C6 witness: with candidates `["A", "B", "C"]` where A locates a
non-editable element and B and C both locate editable ones, the finder
returns B's element, not C's. -/
theorem find_login_element_order_witness :
    abcLocate "A" = some 0 ∧ abcEditable 0 = false ∧
    abcLocate "B" = some 1 ∧ abcEditable 1 = true ∧
    abcLocate "C" = some 2 ∧ abcEditable 2 = true ∧
    find_login_element abcLocate abcEditable ["A", "B", "C"] = some 1 :=
  ⟨rfl, rfl, rfl, rfl, rfl, rfl,
    (find_login_element_order abcLocate abcEditable ["A", "B", "C"]).2 ["A"] "B" ["C"] 1 rfl
      (fun s2 hs2 e2 he2 => by
        have hs : s2 = "A" := by simpa using hs2
        subst hs
        have h0 : abcLocate "A" = some 0 := rfl
        rw [h0] at he2
        cases he2
        rfl)
      rfl rfl⟩

/-- C7: whenever `get_job_listings` returns a list, every record in it has a
truthy url and a truthy, non-sentinel title, the list is no longer than the
requested maximum, and it is a sublist (hence in the original extraction
order) of the full extraction output. -/
theorem get_job_listings_valid (now : String) (page : List Container) (mx : Nat)
    (l : List JobData) (h : get_job_listings now page mx = Except.ok l) :
    (∀ j ∈ l, validJob j = true) ∧ l.length ≤ mx ∧
    ∃ jobs, extract_job_data_from_page now page = Except.ok jobs ∧ l.Sublist jobs := by
  unfold get_job_listings at h
  cases hx : extract_job_data_from_page now page with
  | error e => rw [hx] at h; cases h
  | ok jobs =>
    rw [hx] at h
    have hl : (jobs.filter validJob).take mx = l := by
      injection h
    subst hl
    refine ⟨?_, ?_, jobs, rfl, ?_⟩
    · intro j hj
      exact (List.mem_filter.mp (List.mem_of_mem_take hj)).2
    · exact List.length_take_le mx _
    · exact (List.take_sublist mx _).trans (List.filter_sublist jobs)

/-- C7 witness: a one-container page with one job row extracts to one valid
record within the maximum of 2. -/
theorem get_job_listings_valid_witness :
    get_job_listings "t0" [witnessContainer] 2 = Except.ok [witnessRecord] ∧
    (∀ j ∈ [witnessRecord], validJob j = true) ∧
    ([witnessRecord] : List JobData).length ≤ 2 :=
  ⟨rfl,
    (get_job_listings_valid "t0" [witnessContainer] 2 [witnessRecord] rfl).1,
    (get_job_listings_valid "t0" [witnessContainer] 2 [witnessRecord] rfl).2.1⟩

/-- C8: cover-letter composition is total and never empty — the composed
letter is non-empty, the fallback letter is non-empty, any raised internal
error is absorbed into the fallback letter, and the fallback letter depends
only on the record's `title` and `company` fields. -/
theorem cover_letter_total (job_info : JobInfo) :
    generate_cover_letter job_info ≠ "" ∧
    get_fallback_cover_letter job_info ≠ "" ∧
    (∀ e, generate_cover_letter_exc job_info = Except.error e →
      generate_cover_letter job_info = get_fallback_cover_letter job_info) ∧
    (∀ j2 : JobInfo, job_info.title = j2.title → job_info.company = j2.company →
      get_fallback_cover_letter job_info = get_fallback_cover_letter j2) := by
  refine ⟨?_, ?_, ?_, ?_⟩
  · show generate_cover_letter_body job_info ≠ ""
    unfold generate_cover_letter_body
    repeat apply strApp_ne_empty
    decide
  · unfold get_fallback_cover_letter
    repeat apply strApp_ne_empty
    decide
  · intro e he
    simp [generate_cover_letter_exc] at he
  · intro j2 h1 h2
    unfold get_fallback_cover_letter
    rw [h1, h2]

/-- C8 witness: two records agreeing on title and company (one without any
description) get the same fallback letter, and the composed letter for the
first is non-empty. -/
theorem cover_letter_total_witness :
    jInfoA.title = jInfoB.title ∧ jInfoA.company = jInfoB.company ∧
    get_fallback_cover_letter jInfoA = get_fallback_cover_letter jInfoB ∧
    generate_cover_letter jInfoA ≠ "" :=
  ⟨rfl, rfl, (cover_letter_total jInfoA).2.2.2 jInfoB rfl rfl, (cover_letter_total jInfoA).1⟩

/-- C9: each returned bucket holds at most 5 lines and equals exactly the
first 5 qualifying lines for that bucket in document order; in particular 8
lines all matching a requirement keyword yield exactly the first 5, in
order. -/
theorem buckets_capped :
    (∀ desc : String,
      (extract_requirements_and_responsibilities desc).1.length ≤ 5 ∧
      (extract_requirements_and_responsibilities desc).2.length ≤ 5 ∧
      (extract_requirements_and_responsibilities desc).1 =
        (((pySplitNewline desc).map pyStrip).filter
          (fun l => decide (l ≠ "") && isReqLine l)).take 5 ∧
      (extract_requirements_and_responsibilities desc).2 =
        (((pySplitNewline desc).map pyStrip).filter
          (fun l => decide (l ≠ "") && !isReqLine l && isRespLine l)).take 5) ∧
    extract_requirements_and_responsibilities
        "skill a\nskill b\nskill c\nskill d\nskill e\nskill f\nskill g\nskill h" =
      (["skill a", "skill b", "skill c", "skill d", "skill e"], []) := by
  constructor
  · intro desc
    have hchar := classifyLines_eq_filter (pySplitNewline desc)
    refine ⟨?_, ?_, ?_, ?_⟩
    · exact List.length_take_le 5 _
    · exact List.length_take_le 5 _
    · show (classifyLines (pySplitNewline desc)).1.take 5 = _
      rw [hchar]
    · show (classifyLines (pySplitNewline desc)).2.take 5 = _
      rw [hchar]
  · decide

/-- C10: the record built for a job row stores in its `metadata` field the
full token list read from the row, verbatim and in DOM order, and each typed
field produced by classification is either empty or a copy of one of those
tokens — classification never removes a token from the metadata list. -/
theorem row_metadata_preserved (now : String) (c : Container) (row : JobRow) :
    (mkRowJobData now c row).metadata = row.metadataTexts.map pyStrip ∧
    ((mkRowJobData now c row).salary = "" ∨
      (mkRowJobData now c row).salary ∈ (mkRowJobData now c row).metadata) ∧
    ((mkRowJobData now c row).equity = "" ∨
      (mkRowJobData now c row).equity ∈ (mkRowJobData now c row).metadata) ∧
    ((mkRowJobData now c row).experience = "" ∨
      (mkRowJobData now c row).experience ∈ (mkRowJobData now c row).metadata) ∧
    ((mkRowJobData now c row).location = "" ∨
      (mkRowJobData now c row).location ∈ (mkRowJobData now c row).metadata) ∧
    ((mkRowJobData now c row).jobType = "" ∨
      (mkRowJobData now c row).jobType ∈ (mkRowJobData now c row).metadata) ∧
    ((mkRowJobData now c row).visa = "" ∨
      (mkRowJobData now c row).visa ∈ (mkRowJobData now c row).metadata) := by
  simp only [mkRowJobData, classifyMetadata]
  refine ⟨trivial, ?_, ?_, ?_, ?_, ?_, ?_⟩
  · exact classifyFold_proj (fun m => m.salary) classifyToken_salary_step _ initMetaFields
  · exact classifyFold_proj (fun m => m.equity) classifyToken_equity_step _ initMetaFields
  · exact classifyFold_proj (fun m => m.experience) classifyToken_experience_step _ initMetaFields
  · exact classifyFold_proj (fun m => m.location) classifyToken_location_step _ initMetaFields
  · exact classifyFold_proj (fun m => m.jobType) classifyToken_jobType_step _ initMetaFields
  · exact classifyFold_proj (fun m => m.visa) classifyToken_visa_step _ initMetaFields

end StartupAutoApplier
